import Mathlib

/-!
Menu template codec and popup outcome logic of `src/menu-object.cc`.

A shallow embedding of the `MENUEX_TEMPLATE_ITEM` encoder (`write_text`,
`menu_item::template_size`, `menu_item::write_template`), of
`menu_item::update_item_info`, of `create_menu`, and of the outcome logic of
`export_Menu_show` / `export_Menu_showSync`.

Conventions of the embedding

* The output buffer is a byte-addressed memory `Mem = Nat → Nat`; a pointer is
  a `Nat` address.  Multi-byte fields are little-endian (the code is Win32
  only).  Every store truncates to the width of the field.
* `wchar_t` is 2 bytes and `MENUEX_TEMPLATE_ITEM::text` lies 14 bytes into the
  record (`uint32 type, state, id; uint16 flags; wchar_t text[]`).
* `size_t` arithmetic is done in `Nat`: the encoded size of a tree is bounded
  by the number of bytes the tree itself occupies in the address space, so the
  64-bit computation cannot wrap.
-/

namespace MenuObject

/-! ## Byte-addressed memory -/

/-- Byte-addressed memory: the content of every address. -/
abbrev Mem := Nat → Nat

/-- Store of one byte (`uint8_t`). -/
def store8 (m : Mem) (a v : Nat) : Mem :=
  fun x => if x = a then v % 256 else m x

/-- Load of one byte. -/
def load8 (m : Mem) (a : Nat) : Nat := m a % 256

/-- Little-endian store of a 16-bit unit (`uint16_t`, `wchar_t`). -/
def store16 (m : Mem) (a v : Nat) : Mem :=
  store8 (store8 m a v) (a + 1) (v / 256)

/-- Little-endian load of a 16-bit unit. -/
def load16 (m : Mem) (a : Nat) : Nat := load8 m a + 256 * load8 m (a + 1)

/-- Little-endian store of a 32-bit word (`uint32_t`). -/
def store32 (m : Mem) (a v : Nat) : Mem :=
  store16 (store16 m a v) (a + 2) (v / 65536)

/-- Little-endian load of a 32-bit word. -/
def load32 (m : Mem) (a : Nat) : Nat := load16 m a + 65536 * load16 m (a + 2)

/-- Conversion of an `int32_t` to `uint32_t` (two's complement). -/
def to_uint32 (v : Int) : Nat := (v % 4294967296).toNat

/-! ## Platform constants (`<winuser.h>`, not part of the repository) -/

/-- Value of `MFT_SEPARATOR` in `<winuser.h>`. -/
def MFT_SEPARATOR : Nat := 0x800
/-- Value of `MFT_STRING` in `<winuser.h>`. -/
def MFT_STRING : Nat := 0x0
/-- Value of `MFS_DISABLED` in `<winuser.h>` (same as `MFS_GRAYED`, two bits). -/
def MFS_DISABLED : Nat := 0x3
/-- Value of `MFS_CHECKED` in `<winuser.h>`. -/
def MFS_CHECKED : Nat := 0x8
/-- Value of `MF_END` in `<winuser.h>`. -/
def MF_END : Nat := 0x80
/-- Value of `MIIM_STATE` in `<winuser.h>`. -/
def MIIM_STATE : Nat := 0x1
/-- Value of `MIIM_ID` in `<winuser.h>`. -/
def MIIM_ID : Nat := 0x2
/-- Value of `MIIM_STRING` in `<winuser.h>`. -/
def MIIM_STRING : Nat := 0x40
/-- Value of `MIIM_FTYPE` in `<winuser.h>`. -/
def MIIM_FTYPE : Nat := 0x100

/-- Complement of a 32-bit mask, as `~mask` converted to `UINT`. -/
def not32 (mask : Nat) : Nat := 0xFFFFFFFF - mask % 4294967296

/-! ## Record layout of `MENUEX_TEMPLATE_ITEM` -/

/-- Offset of `MENUEX_TEMPLATE_ITEM::type`. -/
def off_type : Nat := 0
/-- Offset of `MENUEX_TEMPLATE_ITEM::state`. -/
def off_state : Nat := 4
/-- Offset of `MENUEX_TEMPLATE_ITEM::id`. -/
def off_id : Nat := 8
/-- Offset of `MENUEX_TEMPLATE_ITEM::flags`. -/
def off_flags : Nat := 12
/-- Offset of `MENUEX_TEMPLATE_ITEM::text`. -/
def off_text : Nat := 14

/-- The `std::copy` of `write_text`: stores the units of `src` from `dst` on
and returns the memory and the pointer past the last unit written. -/
def copy : List Nat → Nat → Mem → Mem × Nat
  | [], dst, m => (m, dst)
  | c :: cs, dst, m => copy cs (dst + 2) (store16 m dst c)

/-- The function `write_text(src, item)`: label units, terminator, and one
filler unit when the label has an odd number of units.  Returns the memory and
the pointer past what was written. -/
def write_text (src : List Nat) (item : Nat) (m : Mem) : Mem × Nat :=
  let r := copy src (item + off_text) m
  let m1 := store16 r.1 r.2 0
  let ptr := r.2 + 2
  if src.length % 2 ≠ 0 then (store16 m1 ptr 0, ptr + 2) else (m1, ptr)

/-- The literal `L"Empty"sv`. -/
def Empty_sv : List Nat := [69, 109, 112, 116, 121]

/-- The fields of `MENUITEMINFOW` that this file reads or writes.
`dwTypeData` is the string the pointer refers to, if it is not null. -/
structure MENUITEMINFO where
  cbSize : Nat
  fMask : Nat
  fType : Nat
  fState : Nat
  wID : Nat
  hSubMenu : Nat
  dwTypeData : Option (List Nat)
  cch : Nat

/-! ## `struct menu_item` -/

/-- The struct `menu_item`; every field is a `std::optional`. -/
inductive menu_item where
  | mk (id : Option Int) (text : Option (List Nat))
       (separator disabled checked : Option Bool)
       (items : Option (List menu_item))

namespace menu_item

/-- Field `id`. -/
def id : menu_item → Option Int
  | mk i _ _ _ _ _ => i
/-- Field `text`. -/
def text : menu_item → Option (List Nat)
  | mk _ t _ _ _ _ => t
/-- Field `separator`. -/
def separator : menu_item → Option Bool
  | mk _ _ s _ _ _ => s
/-- Field `disabled`. -/
def disabled : menu_item → Option Bool
  | mk _ _ _ d _ _ => d
/-- Field `checked`. -/
def checked : menu_item → Option Bool
  | mk _ _ _ _ c _ => c
/-- Field `items`. -/
def items : menu_item → Option (List menu_item)
  | mk _ _ _ _ _ its => its

/-- The static `template_item_size(text_chars)`. -/
def template_item_size (text_chars : Nat) : Nat :=
  14 + text_chars * 2 + (if text_chars % 2 ≠ 0 then 4 else 2)

/-- Number of units of the label: `text.has_value() ? text.value().size() : 0`. -/
def text_chars (text : Option (List Nat)) : Nat :=
  match text with
  | some t => t.length
  | none => 0

mutual
/-- The member `template_size()`. -/
def template_size : menu_item → Nat
  | mk _ text _ _ _ none => template_item_size (text_chars text)
  | mk _ text _ _ _ (some its) =>
      template_item_size (text_chars text) + (4 + template_size_vec its)
/-- The static `template_size(items)`. -/
def template_size_vec : List menu_item → Nat
  | [] => template_item_size 5
  | it :: rest => it.template_size + template_size_loop rest
/-- The loop `for (auto& item : items) size += item.template_size();`. -/
def template_size_loop : List menu_item → Nat
  | [] => 0
  | it :: rest => it.template_size + template_size_loop rest
end

/-- Lines 86-94 of the member `write_template(output, is_last)`: the stores
into `type`, `state`, `id` and `flags`; `has_items` is the test `if (items)`. -/
def write_header (id : Option Int) (separator disabled checked : Option Bool)
    (has_items : Bool) (output : Nat) (is_last : Bool) (m : Mem) : Mem :=
  let m := store32 m (output + off_type) 0
  let m := if separator.getD false then
      store32 m (output + off_type) (load32 m (output + off_type) ||| MFT_SEPARATOR) else m
  let m := store32 m (output + off_state) 0
  let m := if disabled.getD false then
      store32 m (output + off_state) (load32 m (output + off_state) ||| MFS_DISABLED) else m
  let m := if checked.getD false then
      store32 m (output + off_state) (load32 m (output + off_state) ||| MFS_CHECKED) else m
  let m := store32 m (output + off_id) (to_uint32 (id.getD 0))
  let m := store16 m (output + off_flags) 0
  let m := if is_last then
      store16 m (output + off_flags) (load16 m (output + off_flags) ||| MF_END) else m
  if has_items then
      store16 m (output + off_flags) (load16 m (output + off_flags) ||| 0x01) else m

/-- Lines 95-96 of the member `write_template`:
`text ? write_text(text.value(), output) : write_text(L""sv, output)`. -/
def write_label (text : Option (List Nat)) (output : Nat) (m : Mem) : Mem × Nat :=
  match text with
  | some t => write_text t output m
  | none => write_text [] output m

/-- Lines 86-96 of the member `write_template`: header fields, then the label;
the result is the memory and the pointer `end`. -/
def write_record (id : Option Int) (text : Option (List Nat))
    (separator disabled checked : Option Bool) (has_items : Bool)
    (output : Nat) (is_last : Bool) (m : Mem) : Mem × Nat :=
  write_label text output (write_header id separator disabled checked has_items output is_last m)

/-- The branch `items.empty()` of the static `write_template`: the "Empty"
placeholder, whose `state` and `flags` are or-ed into what the buffer holds. -/
def write_empty (output : Nat) (m : Mem) : Mem × Nat :=
  let m := store32 m (output + off_state) (load32 m (output + off_state) ||| MFS_DISABLED)
  let m := store16 m (output + off_flags) (load16 m (output + off_flags) ||| MF_END)
  write_text Empty_sv output m

mutual
/-- The member `write_template(output, is_last)`. -/
def write_template : menu_item → Nat → Bool → Mem → Mem × Nat
  | mk id text separator disabled checked none, output, is_last, m =>
      write_record id text separator disabled checked false output is_last m
  | mk id text separator disabled checked (some its), output, is_last, m =>
      let r := write_record id text separator disabled checked true output is_last m
      write_template_vec its (r.2 + 4) r.1
/-- The static `write_template(items, output)`: the placeholder for an empty
vector, else every element but the last with `is_last = false` and the last
one with `is_last = true`. -/
def write_template_vec : List menu_item → Nat → Mem → Mem × Nat
  | [], output, m => write_empty output m
  | it :: rest, output, m =>
      match rest with
      | [] => it.write_template output true m
      | _ :: _ =>
          let r := it.write_template output false m
          write_template_vec rest r.2 r.1
end

/-- The loop `for (it = begin(items); it != last; ++it)
output = it->write_template(output, false);` over the elements before `last`. -/
def write_loop : List menu_item → Nat → Mem → Mem × Nat
  | [], output, m => (m, output)
  | it :: rest, output, m =>
      let r := it.write_template output false m
      write_loop rest r.2 r.1

/-- The member `update_item_info(item)`.  Each `if (separator)`,
`if (disabled)`, ... tests whether the optional holds a value. -/
def update_item_info (options : menu_item) (item : MENUITEMINFO) : MENUITEMINFO :=
  let item := { item with fMask := 0 }
  let item := match options.separator with
    | some _ => { item with fMask := item.fMask ||| MIIM_FTYPE, fType := MFT_SEPARATOR }
    | none => item
  let item := match options.disabled with
    | some v =>
        let item := { item with fMask := item.fMask ||| MIIM_STATE,
                                fState := item.fState &&& not32 MFS_DISABLED }
        if v then { item with fState := item.fState ||| MFS_DISABLED } else item
    | none => item
  let item := match options.checked with
    | some v =>
        let item := { item with fMask := item.fMask ||| MIIM_STATE,
                                fState := item.fState &&& not32 MFS_CHECKED }
        if v then { item with fState := item.fState ||| MFS_CHECKED } else item
    | none => item
  let item := match options.id with
    | some v => { item with fMask := item.fMask ||| MIIM_ID, wID := to_uint32 v }
    | none => item
  match options.text with
  | some t => { item with fMask := item.fMask ||| MIIM_STRING, dwTypeData := some t }
  | none => item

end menu_item

open menu_item

/-- The all-zero memory (`memset(data.get(), 0, size)`). -/
def zero_mem : Mem := fun _ => 0

/-- The literal `L"root"`. -/
def root_text : List Nat := [114, 111, 111, 116]

/-- The function `create_menu(env, items)` up to the call of
`load_menu_indirect`: the zeroed buffer (addresses are relative to
`data.get()`), the template header (`version` at 0, `offset` at 2), and the
dummy item written right behind the 8-byte header.  The dummy item is
default-constructed, so its `separator`, `disabled` and `checked` hold `false`
(the member initialisers), then gets the text "root" and the items.  Returns
the buffer and its size. -/
def create_menu (items : List menu_item) : Mem × Nat :=
  let dummy_item := menu_item.mk none (some root_text) (some false) (some false) (some false)
    (some items)
  let size := 8 + dummy_item.template_size
  let data := zero_mem
  let data := store16 data 0 1
  let data := store16 data 2 4
  let r := dummy_item.write_template 8 true data
  (r.1, size)

/-- Where the sibling sequences of an encoded tree lie.
`SiblingSeq items p s q`: when static `write_template(items, p)` runs, it (or a
nested call at any depth) calls static `write_template(s, q)`.  The root is
`items` at `p`; the `items` of an element `x` are encoded 4 bytes behind the
padded label of the record of `x`, which starts behind the records of the
elements before `x`. -/
inductive SiblingSeq : List menu_item → Nat → List menu_item → Nat → Prop
  | root (items : List menu_item) (p : Nat) : SiblingSeq items p items p
  | child (pre : List menu_item) (x : menu_item) (post sub : List menu_item) (p : Nat)
      (s : List menu_item) (q : Nat) :
      x.items = some sub →
      SiblingSeq sub
        (p + template_size_loop pre + template_item_size (text_chars x.text) + 4) s q →
      SiblingSeq (pre ++ x :: post) p s q

/-- One flag of `update_item_info`: untouched if absent, else cleared and, if
true, set again. -/
def update_flag (flag : Option Bool) (mask : Nat) (fState : Nat) : Nat :=
  match flag with
  | none => fState
  | some v => if v then (fState &&& not32 mask) ||| mask else fState &&& not32 mask

/-! ## Showing the popup -/

/-- The two threads: `env` is the thread of the JavaScript environment, which
calls the exported functions (the originator); `msg` is the thread of
`icon_message_loop`. -/
inductive Thread where
  | env
  | msg
  deriving DecidableEq

/-- The calls and reads that `export_Menu_show` and `export_Menu_showSync`
make. -/
inductive Call where
  | napi_get_cb_info
  | get_env_data
  | read_menu
  | napi_create_promise
  | run_on_msg_thread_nonblocking
  | run_on_msg_thread_blocking
  | run_on_env_thread_blocking
  | GetSystemMetrics
  | read_hwnd
  | TrackPopupMenuEx
  | GetLastError
  | napi_throw_win32_error
  | napi_create_win32_error
  | napi_reject_deferred
  | napi_create
  | napi_get_null
  | napi_resolve_deferred
  deriving DecidableEq

/-- One call, with the thread that makes it. -/
structure Event where
  thread : Thread
  call : Call
  deriving DecidableEq

/-- What a show call delivers: the selected id, `null`, or a Win32 error that
names the failing function and carries the error code. -/
inductive Outcome where
  | selected (item_id : Int)
  | null
  | error (function : String) (code : Nat)
  deriving DecidableEq

/-- Modelled from the spec: `run_on_msg_thread_blocking` of
`icon_message_loop`, which is not under `src/`.  The spec (4.2,
`run_blocking`): the caller posts `work` to the loop thread and is suspended
until the loop thread has executed it to completion.  The work is run once, on
`Thread.msg`, and its result and calls are handed back. -/
def run_on_msg_thread_blocking {α : Type} (work : Thread → α × List Event) :
    α × List Event :=
  work Thread.msg

/-- Modelled from the spec: `run_on_msg_thread_nonblocking` of
`icon_message_loop`, which is not under `src/`.  The spec (4.2,
`run_nonblocking`): the caller posts `work` to the loop thread and returns at
once; the work runs later, once, on `Thread.msg`. -/
def run_on_msg_thread_nonblocking {α : Type} (work : Thread → α × List Event) :
    α × List Event :=
  work Thread.msg

/-- Modelled from the spec: `run_on_env_thread.blocking` of
`icon_message_loop`, which is not under `src/`.  The spec (4.2): the
continuation is posted back to the caller's original execution context, not run
on the loop thread. -/
def run_on_env_thread_blocking {α : Type} (work : Thread → α × List Event) :
    α × List Event :=
  work Thread.env

/-- The call of `TrackPopupMenuEx` with its arguments, as both exports write
it, and the test `if (!item_id) error = GetLastError();`.  `r` is what
`TrackPopupMenuEx` returns (as `int32_t`), `e` what `GetLastError` returns when
it is called right after; `error` enters as 0.  Result: `(item_id, error)`. -/
def track_popup (r : Int) (e : Nat) (t : Thread) : (Int × Nat) × List Event :=
  let item_id := r
  let calls := [Event.mk t Call.GetSystemMetrics, Event.mk t Call.read_hwnd,
    Event.mk t Call.TrackPopupMenuEx]
  if item_id = 0 then ((item_id, e), calls ++ [Event.mk t Call.GetLastError])
  else ((item_id, 0), calls)

/-- The function `export_Menu_showSync`, all N-API calls succeeding: the
delivered outcome and the calls made, in order. -/
def export_Menu_showSync (r : Int) (e : Nat) : Outcome × List Event :=
  let t := Thread.env
  let calls := [Event.mk t Call.napi_get_cb_info, Event.mk t Call.get_env_data,
    Event.mk t Call.read_menu, Event.mk t Call.run_on_msg_thread_blocking]
  let w := run_on_msg_thread_blocking (fun th => track_popup r e th)
  let item_id := w.1.1
  let error := w.1.2
  let calls := calls ++ w.2
  if error ≠ 0 then
    (Outcome.error "TrackPopupMenuEx" error, calls ++ [Event.mk t Call.napi_throw_win32_error])
  else if item_id ≠ 0 then
    (Outcome.selected item_id, calls ++ [Event.mk t Call.napi_create])
  else
    (Outcome.null, calls ++ [Event.mk t Call.napi_get_null])

/-- The continuation that `export_Menu_show` hands to
`run_on_env_thread.blocking`: rejects the promise with the Win32 error, or
resolves it with the id or with `null`. -/
def show_continuation (item_id : Int) (error : Nat) (t : Thread) : Outcome × List Event :=
  if error ≠ 0 then
    (Outcome.error "TrackPopupMenuEx" error,
      [Event.mk t Call.napi_create_win32_error, Event.mk t Call.napi_reject_deferred])
  else if item_id ≠ 0 then
    (Outcome.selected item_id,
      [Event.mk t Call.napi_create, Event.mk t Call.napi_resolve_deferred])
  else
    (Outcome.null, [Event.mk t Call.napi_get_null, Event.mk t Call.napi_resolve_deferred])

/-- The work closure of `export_Menu_show`.  `env_data` is whether
`get_env_data(env)` is non-null when the work runs; if it is null the closure
returns and the promise stays pending (`none`). -/
def show_work (env_data : Bool) (r : Int) (e : Nat) (t : Thread) :
    Option Outcome × List Event :=
  let calls := [Event.mk t Call.get_env_data]
  if env_data then
    let w := track_popup r e t
    let k := run_on_env_thread_blocking (fun th => show_continuation w.1.1 w.1.2 th)
    (some k.1, calls ++ w.2 ++ [Event.mk t Call.run_on_env_thread_blocking] ++ k.2)
  else (none, calls)

/-- What `export_Menu_show` gives: whether it returned the promise (`false`:
it returned `nullptr`), the calls made before it returned, the calls made
afterwards by the posted work, and how the promise is settled, if it is. -/
structure ShowResult where
  promise : Bool
  before : List Event
  after : List Event
  settled : Option Outcome

/-- The function `export_Menu_show`, all N-API calls succeeding.  `env_data1`
is whether `get_env_data(env)` is non-null in the export itself, `env_data2`
whether it is when the posted work runs. -/
def export_Menu_show (env_data1 env_data2 : Bool) (r : Int) (e : Nat) : ShowResult :=
  let t := Thread.env
  let calls := [Event.mk t Call.napi_get_cb_info, Event.mk t Call.get_env_data]
  if env_data1 then
    let calls := calls ++ [Event.mk t Call.read_menu, Event.mk t Call.napi_create_promise,
      Event.mk t Call.run_on_msg_thread_nonblocking]
    let w := run_on_msg_thread_nonblocking (fun th => show_work env_data2 r e th)
    { promise := true, before := calls, after := w.2, settled := w.1 }
  else
    { promise := false, before := calls, after := [], settled := none }

/-! ## Example inputs -/

/-- The entry `{text: "A", id: 1}`. -/
def item_A : menu_item := menu_item.mk (some 1) (some [65]) none none none none

/-- The entry `{text: "BB", id: 2, checked: true}`. -/
def item_BB : menu_item := menu_item.mk (some 2) (some [66, 66]) none none (some true) none

/-- The entry `{text: "C", id: 3}`. -/
def item_C : menu_item := menu_item.mk (some 3) (some [67]) none none none none

/-- The entry `{separator: true}`. -/
def item_sep : menu_item := menu_item.mk none none (some true) none none none

/-- The entry `{text: "BB", items: [{text: "C", id: 3}, {separator: true}]}`. -/
def item_sub : menu_item :=
  menu_item.mk none (some [66, 66]) none none none (some [item_C, item_sep])

/-- The menu `[{text: "A", id: 1}, {text: "BB", items: [...]}]`. -/
def nested_menu : List menu_item := [item_A, item_sub]

/-- A `MENUITEMINFOW` of a checked and disabled string item with id 7. -/
def info_checked : MENUITEMINFO :=
  { cbSize := 80, fMask := 0, fType := MFT_STRING, fState := MFS_CHECKED ||| MFS_DISABLED,
    wID := 7, hSubMenu := 0, dwTypeData := none, cch := 0 }

/-- A `MENUITEMINFOW` of a plain string item with id 7. -/
def info_plain : MENUITEMINFO :=
  { cbSize := 80, fMask := 0, fType := MFT_STRING, fState := 0,
    wID := 7, hSubMenu := 0, dwTypeData := none, cch := 0 }

/-- The options `{separator: false}` of an update. -/
def options_separator_false : menu_item :=
  menu_item.mk none none (some false) none none none

mutual
/-- Whether the byte at `a` is one that the member `write_template` at `output`
leaves dependent on what the buffer held: a byte of the reserved field that
`end += 4` steps over, or such a byte of the nested `items`. -/
def menu_item.prior_bytes : menu_item → Nat → Nat → Bool
  | menu_item.mk _ _ _ _ _ none, _, _ => false
  | menu_item.mk _ text _ _ _ (some its), output, a =>
      (decide (output + template_item_size (text_chars text) ≤ a) &&
        decide (a < output + template_item_size (text_chars text) + 4)) ||
      prior_bytes_vec its (output + template_item_size (text_chars text) + 4) a
/-- Whether the byte at `a` is one that static `write_template(items, output)`
leaves dependent on what the buffer held: for an empty vector the 14 header
bytes of the placeholder (`type` and `id` are not stored, `state` and `flags`
are or-ed into), else such a byte of one of the elements. -/
def prior_bytes_vec : List menu_item → Nat → Nat → Bool
  | [], output, a => decide (output ≤ a) && decide (a < output + off_text)
  | it :: rest, output, a =>
      it.prior_bytes output a || prior_bytes_loop rest (output + it.template_size) a
/-- The bytes of `prior_bytes_vec` for the elements of a non-empty vector, each
at the cursor behind the elements before it. -/
def prior_bytes_loop : List menu_item → Nat → Nat → Bool
  | [], _, _ => false
  | it :: rest, output, a =>
      it.prior_bytes output a || prior_bytes_loop rest (output + it.template_size) a
end

/-- The events of a trace that call `TrackPopupMenuEx` or read
`icon_message_loop.hwnd`. -/
def popup_events (trace : List Event) : List Event :=
  trace.filter (fun ev => ev.call = Call.TrackPopupMenuEx ∨ ev.call = Call.read_hwnd)

/-- How often a trace calls `GetLastError`. -/
def count_GetLastError (trace : List Event) : Nat :=
  (trace.map Event.call).count Call.GetLastError


/-! ## Memory lemmas -/

theorem store8_apply (m : Mem) (a v x : Nat) :
    store8 m a v x = if x = a then v % 256 else m x := rfl

theorem store16_apply (m : Mem) (a v x : Nat) :
    store16 m a v x =
      if x = a + 1 then v / 256 % 256 else if x = a then v % 256 else m x := rfl

theorem store32_apply (m : Mem) (a v x : Nat) :
    store32 m a v x =
      if x = a + 3 then v / 65536 / 256 % 256
      else if x = a + 2 then v / 65536 % 256
      else if x = a + 1 then v / 256 % 256
      else if x = a then v % 256 else m x := rfl

theorem store16_frame (m : Mem) (a v x : Nat) (h : x < a ∨ a + 2 ≤ x) :
    store16 m a v x = m x := by
  rw [store16_apply]
  rw [if_neg (by omega), if_neg (by omega)]

theorem store32_frame (m : Mem) (a v x : Nat) (h : x < a ∨ a + 4 ≤ x) :
    store32 m a v x = m x := by
  rw [store32_apply]
  rw [if_neg (by omega), if_neg (by omega), if_neg (by omega), if_neg (by omega)]

theorem load16_congr (m m2 : Mem) (a : Nat)
    (h : ∀ x, a ≤ x → x < a + 2 → m x = m2 x) : load16 m a = load16 m2 a := by
  unfold load16 load8
  rw [h a (by omega) (by omega), h (a + 1) (by omega) (by omega)]

theorem load32_congr (m m2 : Mem) (a : Nat)
    (h : ∀ x, a ≤ x → x < a + 4 → m x = m2 x) : load32 m a = load32 m2 a := by
  unfold load32
  rw [load16_congr m m2 a (fun x h1 h2 => h x h1 (by omega)),
    load16_congr m m2 (a + 2) (fun x h1 h2 => h x (by omega) (by omega))]

theorem load16_store16 (m : Mem) (a v : Nat) : load16 (store16 m a v) a = v % 65536 := by
  unfold load16 load8
  simp [store16_apply]
  omega

theorem load32_store32 (m : Mem) (a v : Nat) :
    load32 (store32 m a v) a = v % 4294967296 := by
  unfold load32 load16 load8
  simp [store32_apply]
  omega

theorem copy_ptr (src : List Nat) (dst : Nat) (m : Mem) :
    (copy src dst m).2 = dst + 2 * src.length := by
  induction src generalizing dst m with
  | nil => simp [copy]
  | cons c cs ih => simp only [copy, ih, List.length_cons]; omega

theorem copy_frame (src : List Nat) (dst : Nat) (m : Mem) (x : Nat)
    (h : x < dst ∨ dst + 2 * src.length ≤ x) : (copy src dst m).1 x = m x := by
  induction src generalizing dst m with
  | nil => simp [copy]
  | cons c cs ih =>
    simp only [copy, List.length_cons] at h ⊢
    rw [ih _ _ (by omega), store16_frame _ _ _ _ (by omega)]

theorem copy_get (src : List Nat) (dst : Nat) (m : Mem) (i : Nat) (hi : i < src.length) :
    load16 (copy src dst m).1 (dst + 2 * i) = src.get ⟨i, hi⟩ % 65536 := by
  induction src generalizing dst m i with
  | nil => simp at hi
  | cons c cs ih =>
    cases i with
    | zero =>
      simp only [copy, List.get, Nat.mul_zero, Nat.add_zero]
      rw [load16_congr _ (store16 m dst c) dst
        (fun x h1 h2 => copy_frame cs (dst + 2) _ x (by omega))]
      exact load16_store16 m dst c
    | succ j =>
      simp only [copy, List.get]
      have e : dst + 2 * (j + 1) = (dst + 2) + 2 * j := by omega
      rw [e]
      exact ih (dst + 2) _ j (by simpa using hi)

theorem write_text_ptr (src : List Nat) (item : Nat) (m : Mem) :
    (write_text src item m).2 = item + template_item_size src.length := by
  unfold write_text template_item_size off_text
  simp only [copy_ptr]
  split <;> simp <;> omega

theorem write_text_frame (src : List Nat) (item : Nat) (m : Mem) (x : Nat)
    (h : x < item + 14 ∨ item + template_item_size src.length ≤ x) :
    (write_text src item m).1 x = m x := by
  unfold write_text off_text
  unfold template_item_size at h
  simp only [copy_ptr]
  split
  · rename_i hodd
    rw [if_pos hodd] at h
    simp only
    rw [store16_frame _ _ _ _ (by omega), store16_frame _ _ _ _ (by omega),
      copy_frame _ _ _ _ (by omega)]
  · rename_i hodd
    rw [if_neg hodd] at h
    simp only
    rw [store16_frame _ _ _ _ (by omega), copy_frame _ _ _ _ (by omega)]

theorem write_text_get (src : List Nat) (item : Nat) (m : Mem) (i : Nat)
    (hi : i < src.length) :
    load16 (write_text src item m).1 (item + 14 + 2 * i) = src.get ⟨i, hi⟩ % 65536 := by
  rw [← copy_get src (item + 14) m i hi]
  apply load16_congr
  intro x h1 h2
  unfold write_text off_text
  simp only [copy_ptr]
  split
  · simp only
    rw [store16_frame _ _ _ _ (by omega), store16_frame _ _ _ _ (by omega)]
  · simp only
    rw [store16_frame _ _ _ _ (by omega)]

theorem write_text_terminator (src : List Nat) (item : Nat) (m : Mem) :
    load16 (write_text src item m).1 (item + 14 + 2 * src.length) = 0 := by
  unfold write_text off_text
  simp only [copy_ptr]
  split
  · simp only
    rw [load16_congr _ (store16 (copy src (item + 14) m).1 (item + 14 + 2 * src.length) 0) _
      (fun x h1 h2 => store16_frame _ _ _ _ (by omega))]
    exact load16_store16 _ _ _
  · exact load16_store16 _ _ _

theorem write_text_filler (src : List Nat) (item : Nat) (m : Mem)
    (hodd : src.length % 2 ≠ 0) :
    load16 (write_text src item m).1 (item + 14 + 2 * src.length + 2) = 0 := by
  unfold write_text off_text
  simp only [copy_ptr]
  rw [if_pos hodd]
  exact load16_store16 _ _ _

/-! ## The fixed part of a record -/

theorem load32_store32_frame (m : Mem) (a v b : Nat) (h : b + 4 ≤ a ∨ a + 4 ≤ b) :
    load32 (store32 m a v) b = load32 m b :=
  load32_congr _ _ _ (fun x _ _ => store32_frame m a v x (by omega))

theorem load32_store16_frame (m : Mem) (a v b : Nat) (h : b + 4 ≤ a ∨ a + 2 ≤ b) :
    load32 (store16 m a v) b = load32 m b :=
  load32_congr _ _ _ (fun x _ _ => store16_frame m a v x (by omega))

theorem load16_store32_frame (m : Mem) (a v b : Nat) (h : b + 2 ≤ a ∨ a + 4 ≤ b) :
    load16 (store32 m a v) b = load16 m b :=
  load16_congr _ _ _ (fun x _ _ => store32_frame m a v x (by omega))

theorem load16_store16_frame (m : Mem) (a v b : Nat) (h : b + 2 ≤ a ∨ a + 2 ≤ b) :
    load16 (store16 m a v) b = load16 m b :=
  load16_congr _ _ _ (fun x _ _ => store16_frame m a v x (by omega))

theorem load32_write_text (src : List Nat) (item : Nat) (m : Mem) (b : Nat)
    (h : b + 4 ≤ item + 14) : load32 (write_text src item m).1 b = load32 m b :=
  load32_congr _ _ _ (fun x _ _ => write_text_frame src item m x (by omega))

theorem load16_write_text (src : List Nat) (item : Nat) (m : Mem) (b : Nat)
    (h : b + 2 ≤ item + 14) : load16 (write_text src item m).1 b = load16 m b :=
  load16_congr _ _ _ (fun x _ _ => write_text_frame src item m x (by omega))

theorem write_label_ptr (text : Option (List Nat)) (output : Nat) (m : Mem) :
    (write_label text output m).2 = output + template_item_size (text_chars text) := by
  cases text <;> simp [write_label, write_text_ptr, text_chars]

theorem write_label_eq (text : Option (List Nat)) (output : Nat) (m : Mem) :
    write_label text output m = write_text (text.getD []) output m := by
  cases text <;> rfl

theorem text_chars_eq (text : Option (List Nat)) :
    text_chars text = (text.getD []).length := by
  cases text <;> rfl

theorem write_label_frame (text : Option (List Nat)) (output : Nat) (m : Mem) (x : Nat)
    (h : x < output + 14 ∨ output + template_item_size (text_chars text) ≤ x) :
    (write_label text output m).1 x = m x := by
  rw [write_label_eq]
  rw [text_chars_eq] at h
  exact write_text_frame _ _ _ _ h

theorem write_header_frame (ident : Option Int)
    (separator disabled checked : Option Bool) (has_items : Bool)
    (output : Nat) (is_last : Bool) (m : Mem) (x : Nat)
    (h : x < output ∨ output + 14 ≤ x) :
    write_header ident separator disabled checked has_items output is_last m x = m x := by
  have f0 : ∀ (m2 : Mem) (v : Nat), store32 m2 output v x = m2 x :=
    fun m2 v => store32_frame m2 output v x (by omega)
  have f32 : ∀ (m2 : Mem) (a v : Nat), a ≤ 8 → store32 m2 (output + a) v x = m2 x :=
    fun m2 a v ha => store32_frame m2 (output + a) v x (by omega)
  have f16 : ∀ (m2 : Mem) (v : Nat), store16 m2 (output + 12) v x = m2 x :=
    fun m2 v => store16_frame m2 (output + 12) v x (by omega)
  unfold write_header off_type off_state off_id off_flags
  cases separator.getD false <;> cases disabled.getD false <;> cases checked.getD false <;>
    cases is_last <;> cases has_items <;> simp [f0, f32, f16]

theorem write_record_ptr (ident : Option Int) (text : Option (List Nat))
    (separator disabled checked : Option Bool) (has_items : Bool)
    (output : Nat) (is_last : Bool) (m : Mem) :
    (write_record ident text separator disabled checked has_items output is_last m).2
      = output + template_item_size (text_chars text) := by
  unfold write_record
  exact write_label_ptr _ _ _

theorem write_record_frame (ident : Option Int) (text : Option (List Nat))
    (separator disabled checked : Option Bool) (has_items : Bool)
    (output : Nat) (is_last : Bool) (m : Mem) (x : Nat)
    (h : x < output ∨ output + template_item_size (text_chars text) ≤ x) :
    (write_record ident text separator disabled checked has_items output is_last m).1 x
      = m x := by
  have hs : 16 ≤ template_item_size (text_chars text) := by
    unfold template_item_size; split <;> omega
  unfold write_record
  rw [write_label_frame _ _ _ _ (by omega), write_header_frame _ _ _ _ _ _ _ _ _ (by omega)]

/-! ## The recursive encoder -/

theorem template_item_size_ge (n : Nat) : 16 ≤ template_item_size n := by
  unfold template_item_size; split <;> omega

theorem write_empty_ptr (output : Nat) (m : Mem) :
    (write_empty output m).2 = output + template_item_size 5 := by
  unfold write_empty
  simp only [write_text_ptr, Empty_sv, List.length]

theorem write_empty_frame (output : Nat) (m : Mem) (x : Nat)
    (h : x < output ∨ output + template_item_size 5 ≤ x) :
    (write_empty output m).1 x = m x := by
  have hs : template_item_size 5 = 28 := by decide
  rw [hs] at h
  unfold write_empty off_state off_flags
  simp only
  rw [write_text_frame _ _ _ _ (by simp only [Empty_sv, List.length, hs]; omega),
    store16_frame _ _ _ _ (by omega), store32_frame _ _ _ _ (by omega)]

theorem template_size_vec_cons (it : menu_item) (rest : List menu_item) :
    template_size_vec (it :: rest) = template_size_loop (it :: rest) := by
  simp [template_size_vec, template_size_loop]

theorem template_size_loop_append (xs ys : List menu_item) :
    template_size_loop (xs ++ ys) = template_size_loop xs + template_size_loop ys := by
  induction xs with
  | nil => simp [template_size_loop]
  | cons x xs ih => simp [template_size_loop, ih]; omega

theorem write_template_vec_nil (output : Nat) (m : Mem) :
    write_template_vec [] output m = write_empty output m := by
  rw [write_template_vec]

theorem write_template_vec_single (it : menu_item) (output : Nat) (m : Mem) :
    write_template_vec [it] output m = it.write_template output true m := by
  rw [write_template_vec]

theorem write_template_vec_cons_cons (it b : menu_item) (rest : List menu_item)
    (output : Nat) (m : Mem) :
    write_template_vec (it :: b :: rest) output m =
      write_template_vec (b :: rest) (it.write_template output false m).2
        (it.write_template output false m).1 := by
  rw [write_template_vec]

mutual
theorem write_template_ptr : ∀ (n : menu_item) (output : Nat) (is_last : Bool) (m : Mem),
    (n.write_template output is_last m).2 = output + n.template_size
  | mk ident text separator disabled checked none, output, is_last, m => by
      simp only [write_template, template_size, write_record_ptr]
  | mk ident text separator disabled checked (some its), output, is_last, m => by
      simp only [write_template, template_size, write_template_vec_ptr its, write_record_ptr]
      omega
theorem write_template_vec_ptr : ∀ (items : List menu_item) (output : Nat) (m : Mem),
    (write_template_vec items output m).2 = output + template_size_vec items
  | [], output, m => by
      simp only [write_template_vec, template_size_vec, write_empty_ptr]
  | it :: [], output, m => by
      simp only [write_template_vec_single, template_size_vec, template_size_loop,
        write_template_ptr it]
      omega
  | it :: b :: rest, output, m => by
      rw [write_template_vec_cons_cons, write_template_vec_ptr (b :: rest),
        write_template_ptr it]
      simp only [template_size_vec, template_size_loop]
      omega
end

mutual
theorem write_template_frame : ∀ (n : menu_item) (output : Nat) (is_last : Bool) (m : Mem)
    (x : Nat), (x < output ∨ output + n.template_size ≤ x) →
    (n.write_template output is_last m).1 x = m x
  | mk ident text separator disabled checked none, output, is_last, m, x, h => by
      simp only [write_template]
      simp only [template_size] at h
      exact write_record_frame _ _ _ _ _ _ _ _ _ _ h
  | mk ident text separator disabled checked (some its), output, is_last, m, x, h => by
      simp only [write_template]
      simp only [template_size] at h
      have hs := template_item_size_ge (text_chars text)
      rw [write_template_vec_frame its _ _ x (by rw [write_record_ptr]; omega)]
      exact write_record_frame _ _ _ _ _ _ _ _ _ _ (by omega)
theorem write_template_vec_frame : ∀ (items : List menu_item) (output : Nat) (m : Mem)
    (x : Nat), (x < output ∨ output + template_size_vec items ≤ x) →
    (write_template_vec items output m).1 x = m x
  | [], output, m, x, h => by
      simp only [write_template_vec]
      simp only [template_size_vec] at h
      exact write_empty_frame _ _ _ h
  | it :: [], output, m, x, h => by
      rw [write_template_vec_single]
      simp only [template_size_vec, template_size_loop] at h
      exact write_template_frame it _ _ _ _ (by omega)
  | it :: b :: rest, output, m, x, h => by
      rw [write_template_vec_cons_cons]
      simp only [template_size_vec, template_size_loop] at h
      rw [write_template_vec_frame (b :: rest) _ _ x
        (by rw [write_template_ptr it]; simp only [template_size_vec, template_size_loop]; omega)]
      exact write_template_frame it _ _ _ _ (by omega)
end

/-! ## Header fields of a record -/

theorem to_uint32_lt (v : Int) : to_uint32 v < 4294967296 := by
  unfold to_uint32; omega

theorem to_uint32_of_nonneg (v : Int) (h0 : 0 ≤ v) (h1 : v < 4294967296) :
    (to_uint32 v : Int) = v := by
  unfold to_uint32; omega

theorem write_header_fields (ident : Option Int)
    (separator disabled checked : Option Bool) (has_items : Bool)
    (output : Nat) (is_last : Bool) (m : Mem) :
    load32 (write_header ident separator disabled checked has_items output is_last m) output
        = (if separator.getD false then MFT_SEPARATOR else 0) ∧
    load32 (write_header ident separator disabled checked has_items output is_last m) (output + 4)
        = ((if disabled.getD false then MFS_DISABLED else 0) |||
            (if checked.getD false then MFS_CHECKED else 0)) ∧
    load32 (write_header ident separator disabled checked has_items output is_last m) (output + 8)
        = to_uint32 (ident.getD 0) ∧
    load16 (write_header ident separator disabled checked has_items output is_last m) (output + 12)
        = ((if is_last then MF_END else 0) ||| (if has_items then 1 else 0)) := by
  have hid := to_uint32_lt (ident.getD 0)
  unfold write_header off_type off_state off_id off_flags
  refine ⟨?_, ?_, ?_, ?_⟩
  · cases separator.getD false <;> cases disabled.getD false <;> cases checked.getD false <;>
      cases is_last <;> cases has_items <;>
      simp (disch := omega) [load32_store32, load32_store32_frame, load32_store16_frame,
        load16_store16, load16_store16_frame, load16_store32_frame, MFT_SEPARATOR]
  · cases separator.getD false <;> cases disabled.getD false <;> cases checked.getD false <;>
      cases is_last <;> cases has_items <;>
      simp (disch := omega) [load32_store32, load32_store32_frame, load32_store16_frame,
        load16_store16, load16_store16_frame, load16_store32_frame, MFS_DISABLED, MFS_CHECKED]
  · cases separator.getD false <;> cases disabled.getD false <;> cases checked.getD false <;>
      cases is_last <;> cases has_items <;>
      simp (disch := omega) [load32_store32, load32_store32_frame, load32_store16_frame,
        load16_store16, load16_store16_frame, load16_store32_frame] <;> omega
  · cases separator.getD false <;> cases disabled.getD false <;> cases checked.getD false <;>
      cases is_last <;> cases has_items <;>
      simp (disch := omega) [load32_store32, load32_store32_frame, load32_store16_frame,
        load16_store16, load16_store16_frame, load16_store32_frame, MF_END]

/-! ## Sibling sequences -/

theorem write_loop_ptr (pre : List menu_item) (p : Nat) (m : Mem) :
    (write_loop pre p m).2 = p + template_size_loop pre := by
  induction pre generalizing p m with
  | nil => simp [write_loop, template_size_loop]
  | cons a pre ih =>
    simp only [write_loop, ih, write_template_ptr, template_size_loop]; omega

theorem write_template_vec_cons_ne (it : menu_item) (rest : List menu_item)
    (output : Nat) (m : Mem) (h : rest ≠ []) :
    write_template_vec (it :: rest) output m =
      write_template_vec rest (it.write_template output false m).2
        (it.write_template output false m).1 := by
  cases rest with
  | nil => exact absurd rfl h
  | cons b rest => exact write_template_vec_cons_cons it b rest output m

/-- The static `write_template` in the shape of the source: the loop over the
elements before the last one, then the last one with `is_last = true`. -/
theorem write_template_vec_snoc (pre : List menu_item) (last : menu_item)
    (p : Nat) (m : Mem) :
    write_template_vec (pre ++ [last]) p m =
      last.write_template (write_loop pre p m).2 true (write_loop pre p m).1 := by
  induction pre generalizing p m with
  | nil => simp [write_loop, write_template_vec_single]
  | cons a pre ih =>
    rw [List.cons_append, write_template_vec_cons_ne _ _ _ _ (by simp), ih]
    simp [write_loop]

theorem write_template_vec_split (pre : List menu_item) (x b : menu_item)
    (rest : List menu_item) (p : Nat) (m : Mem) :
    write_template_vec (pre ++ x :: b :: rest) p m =
      write_template_vec (b :: rest)
        (x.write_template (write_loop pre p m).2 false (write_loop pre p m).1).2
        (x.write_template (write_loop pre p m).2 false (write_loop pre p m).1).1 := by
  induction pre generalizing p m with
  | nil => simp [write_loop, write_template_vec_cons_cons]
  | cons a pre ih =>
    rw [List.cons_append, write_template_vec_cons_ne _ _ _ _ (by simp), ih]
    simp [write_loop]

/-- Below the end of the record of `x`, the memory after encoding the whole
sequence is the memory right after the member `write_template` of `x`. -/
theorem write_template_vec_at (pre : List menu_item) (x : menu_item)
    (post : List menu_item) (p : Nat) (m : Mem) (y : Nat)
    (hy : y < p + template_size_loop pre + x.template_size) :
    (write_template_vec (pre ++ x :: post) p m).1 y =
      (x.write_template (p + template_size_loop pre) post.isEmpty (write_loop pre p m).1).1 y := by
  cases post with
  | nil =>
    rw [write_template_vec_snoc, write_loop_ptr]
    rfl
  | cons b rest =>
    rw [write_template_vec_split, write_loop_ptr]
    rw [write_template_vec_frame _ _ _ _ (by rw [write_template_ptr]; omega)]
    rfl

theorem write_template_header (n : menu_item) (output : Nat) (is_last : Bool) (m : Mem)
    (y : Nat) (hy : y < output + 14) :
    (n.write_template output is_last m).1 y =
      write_header n.id n.separator n.disabled n.checked n.items.isSome output is_last m y := by
  cases n with
  | mk ident text separator disabled checked items =>
    cases items with
    | none =>
      simp only [write_template, write_record, menu_item.id, menu_item.separator,
        menu_item.disabled, menu_item.checked, menu_item.items, Option.isSome]
      rw [write_label_frame _ _ _ _ (by omega)]
    | some its =>
      simp only [write_template, write_record, menu_item.id, menu_item.separator,
        menu_item.disabled, menu_item.checked, menu_item.items, Option.isSome]
      have hs := template_item_size_ge (text_chars text)
      rw [write_template_vec_frame _ _ _ _ (by rw [write_label_ptr]; omega),
        write_label_frame _ _ _ _ (by omega)]

theorem template_size_ge (n : menu_item) :
    template_item_size (text_chars n.text) ≤ n.template_size := by
  cases n with
  | mk ident text separator disabled checked items =>
    cases items <;> simp [template_size, menu_item.text]

theorem template_size_vec_append (pre : List menu_item) (x : menu_item)
    (post : List menu_item) :
    template_size_vec (pre ++ x :: post) =
      template_size_loop pre + x.template_size + template_size_loop post := by
  cases pre with
  | nil => simp [template_size_vec, template_size_loop]
  | cons a pre =>
    rw [List.cons_append, template_size_vec_cons, ← List.cons_append,
      template_size_loop_append]
    simp [template_size_loop]; omega

theorem template_size_items (x : menu_item) (sub : List menu_item) (h : x.items = some sub) :
    x.template_size = template_item_size (text_chars x.text) + (4 + template_size_vec sub) := by
  cases x with
  | mk ident text separator disabled checked items =>
    simp only [menu_item.items] at h
    subst h
    simp [template_size, menu_item.text]

theorem write_template_items (x : menu_item) (sub : List menu_item) (h : x.items = some sub)
    (output : Nat) (is_last : Bool) (m : Mem) :
    x.write_template output is_last m =
      write_template_vec sub (output + template_item_size (text_chars x.text) + 4)
        (write_record x.id x.text x.separator x.disabled x.checked true output is_last m).1 := by
  cases x with
  | mk ident text separator disabled checked items =>
    simp only [menu_item.items] at h
    subst h
    simp only [write_template, write_record_ptr, menu_item.id, menu_item.text,
      menu_item.separator, menu_item.disabled, menu_item.checked]

/-- A sibling sequence lies inside the encoding of the tree, and the bytes of
its region after encoding the tree are those that static `write_template`
leaves when run on the sequence alone, at its cursor, on some memory. -/
theorem SiblingSeq.encoded {items : List menu_item} {p : Nat} {s : List menu_item} {q : Nat}
    (h : SiblingSeq items p s q) :
    p ≤ q ∧ q + template_size_vec s ≤ p + template_size_vec items ∧
    ∀ m : Mem, ∃ m0 : Mem, ∀ y, q ≤ y → y < q + template_size_vec s →
      (write_template_vec items p m).1 y = (write_template_vec s q m0).1 y := by
  induction h with
  | root items p => exact ⟨le_refl _, le_refl _, fun m => ⟨m, fun y _ _ => rfl⟩⟩
  | child pre x post sub p s q hx _ ih =>
    obtain ⟨h1, h2, h3⟩ := ih
    have hsz := template_size_items x sub hx
    have happ := template_size_vec_append pre x post
    refine ⟨by omega, by omega, fun m => ?_⟩
    obtain ⟨m0, hm0⟩ := h3
      (write_record x.id x.text x.separator x.disabled x.checked true
        (p + template_size_loop pre) post.isEmpty (write_loop pre p m).1).1
    refine ⟨m0, fun y hy1 hy2 => ?_⟩
    rw [write_template_vec_at _ _ _ _ _ _ (by omega), write_template_items x sub hx]
    exact hm0 y hy1 hy2

mutual
theorem template_size_mod4 : ∀ (n : menu_item), n.template_size % 4 = 0
  | mk ident text separator disabled checked none => by
      simp only [template_size, template_item_size]; split <;> omega
  | mk ident text separator disabled checked (some its) => by
      have h := template_size_vec_mod4 its
      simp only [template_size, template_item_size]; split <;> omega
theorem template_size_vec_mod4 : ∀ (items : List menu_item), template_size_vec items % 4 = 0
  | [] => by decide
  | it :: rest => by
      have h1 := template_size_mod4 it
      have h2 := template_size_loop_mod4 rest
      simp only [template_size_vec]; omega
theorem template_size_loop_mod4 : ∀ (items : List menu_item), template_size_loop items % 4 = 0
  | [] => by decide
  | it :: rest => by
      have h1 := template_size_mod4 it
      have h2 := template_size_loop_mod4 rest
      simp only [template_size_loop]; omega
end

theorem template_item_size_mod4 (n : Nat) : template_item_size n % 4 = 0 := by
  unfold template_item_size; split <;> omega

theorem SiblingSeq.aligned {items : List menu_item} {p : Nat} {s : List menu_item} {q : Nat}
    (h : SiblingSeq items p s q) : p ≤ q ∧ (q - p) % 4 = 0 := by
  induction h with
  | root items p => simp
  | child pre x post sub p s q hx _ ih =>
    have h1 := template_size_loop_mod4 pre
    have h2 := template_item_size_mod4 (text_chars x.text)
    omega

/-! ## The claims -/

/-- C1 (size/encode consistency): static `write_template(items, p)` returns
`p + template_size(items)` for every vector of `menu_item`, and the member
`n.write_template(p, is_last)` returns `p + n.template_size()` for every node
and both values of `is_last`, whatever the buffer holds. -/
theorem C1_size_encode_consistency (items : List menu_item) (p : Nat) (m : Mem)
    (n : menu_item) (q : Nat) (is_last : Bool) (m2 : Mem) :
    (write_template_vec items p m).2 = p + template_size_vec items ∧
    (n.write_template q is_last m2).2 = q + n.template_size :=
  ⟨write_template_vec_ptr items p m, write_template_ptr n q is_last m2⟩

/-- C2 (terminal bit uniqueness): in the output of static
`write_template(items, p)`, for every sibling sequence `pre ++ x :: post` of
the tree (the top-level vector or the `items` of a node at any depth, encoded
at cursor `q`), the record of `x` is written at the cursor the loop has reached
after `pre`, and the `MF_END` bit of its `flags` field is set when `x` is the
last element and clear when it is not, whatever the data of the nodes. -/
theorem C2_terminal_bit (items : List menu_item) (p : Nat)
    (pre : List menu_item) (x : menu_item) (post : List menu_item) (q : Nat)
    (h : SiblingSeq items p (pre ++ x :: post) q) (m : Mem) :
    (write_loop pre q m).2 = q + template_size_loop pre ∧
    load16 (write_template_vec items p m).1 (q + template_size_loop pre + off_flags) &&& MF_END
      = if post.isEmpty then MF_END else 0 := by
  refine ⟨write_loop_ptr pre q m, ?_⟩
  obtain ⟨_, _, h3⟩ := h.encoded
  obtain ⟨m0, hm0⟩ := h3 m
  have happ := template_size_vec_append pre x post
  have hge := template_size_ge x
  have h16 := template_item_size_ge (text_chars x.text)
  have e : load16 (write_template_vec items p m).1 (q + template_size_loop pre + off_flags)
      = load16 (write_header x.id x.separator x.disabled x.checked x.items.isSome
          (q + template_size_loop pre) post.isEmpty (write_loop pre q m0).1)
          (q + template_size_loop pre + 12) := by
    apply load16_congr
    intro y hy1 hy2
    simp only [off_flags] at hy1 hy2
    rw [hm0 y (by omega) (by omega), write_template_vec_at _ _ _ _ _ _ (by omega),
      write_template_header _ _ _ _ _ (by omega)]
  rw [e, (write_header_fields _ _ _ _ _ _ _ _).2.2.2]
  cases post.isEmpty <;> cases x.items.isSome <;> decide

/-- C3 (alignment): `template_item_size(n)` is a multiple of 4 for every text
length, `template_size(items)` is a multiple of 4 for every vector, and in the
output of static `write_template(its, p)` every sibling sequence (at any
depth) starts at a cursor `q` at a multiple of 4 from `p`, and each of its
records is written at a cursor at a multiple of 4 from `q`. -/
theorem C3_alignment (n : Nat) (items its : List menu_item) (p : Nat)
    (pre : List menu_item) (x : menu_item) (post : List menu_item) (q : Nat)
    (h : SiblingSeq its p (pre ++ x :: post) q) (m : Mem) :
    template_item_size n % 4 = 0 ∧
    template_size_vec items % 4 = 0 ∧
    q ≤ (write_loop pre q m).2 ∧ ((write_loop pre q m).2 - q) % 4 = 0 ∧
    p ≤ q ∧ (q - p) % 4 = 0 := by
  have h1 := template_size_loop_mod4 pre
  have h2 := h.aligned
  refine ⟨template_item_size_mod4 n, template_size_vec_mod4 items, ?_, ?_, h2.1, h2.2⟩
  · rw [write_loop_ptr]; omega
  · rw [write_loop_ptr]; omega

/-- C4 (padding parity): the record of a leaf node (`items` absent) whose label
has `L` units (`L = 0` when `text` is absent) ends `14 + 2*L + 4` bytes after
its start when `L` is odd and `14 + 2*L + 2` bytes when `L` is even, which is
also its `template_size()`; behind the 14-byte header come the `L` label units
in order, then a zero terminator unit, then, when `L` is odd, a zero filler
unit.  For `[{text:"A", id:1}, {text:"BB", id:2, checked:true}]` each of the
two records is 20 bytes long. -/
theorem C4_padding_parity (ident : Option Int) (text : Option (List Nat))
    (separator disabled checked : Option Bool) (p : Nat) (is_last : Bool) (m : Mem)
    (hw : ∀ u ∈ text.getD [], u < 65536) :
    ((text.getD []).length % 2 = 1 →
      (mk ident text separator disabled checked none).template_size
          = 14 + 2 * (text.getD []).length + 4 ∧
      ((mk ident text separator disabled checked none).write_template p is_last m).2
          = p + (14 + 2 * (text.getD []).length + 4) ∧
      load16 ((mk ident text separator disabled checked none).write_template p is_last m).1
          (p + 14 + 2 * (text.getD []).length + 2) = 0) ∧
    ((text.getD []).length % 2 = 0 →
      (mk ident text separator disabled checked none).template_size
          = 14 + 2 * (text.getD []).length + 2 ∧
      ((mk ident text separator disabled checked none).write_template p is_last m).2
          = p + (14 + 2 * (text.getD []).length + 2)) ∧
    (∀ (i : Nat) (hi : i < (text.getD []).length),
      load16 ((mk ident text separator disabled checked none).write_template p is_last m).1
          (p + 14 + 2 * i) = (text.getD []).get ⟨i, hi⟩) ∧
    load16 ((mk ident text separator disabled checked none).write_template p is_last m).1
        (p + 14 + 2 * (text.getD []).length) = 0 ∧
    (mk (some 1) (some [65]) none none none none).template_size = 20 ∧
    (mk (some 2) (some [66, 66]) none none (some true) none).template_size = 20 ∧
    (write_loop [mk (some 1) (some [65]) none none none none] p m).2 = p + 20 ∧
    (write_template_vec [mk (some 1) (some [65]) none none none none,
      mk (some 2) (some [66, 66]) none none (some true) none] p m).2 = p + 20 + 20 := by
  have hsz : (mk ident text separator disabled checked none).template_size
      = template_item_size (text.getD []).length := by
    simp only [template_size, text_chars_eq]
  have hmem : ((mk ident text separator disabled checked none).write_template p is_last m).1
      = (write_text (text.getD []) p
          (write_header ident separator disabled checked false p is_last m)).1 := by
    simp only [write_template, write_record, write_label_eq]
  refine ⟨?_, ?_, ?_, ?_, by decide, by decide, ?_, ?_⟩
  · intro hodd
    refine ⟨?_, ?_, ?_⟩
    · rw [hsz]; unfold template_item_size; rw [if_pos (by omega)]; omega
    · rw [write_template_ptr, hsz]; unfold template_item_size; rw [if_pos (by omega)]; omega
    · rw [hmem]; exact write_text_filler _ _ _ (by omega)
  · intro heven
    refine ⟨?_, ?_⟩
    · rw [hsz]; unfold template_item_size; rw [if_neg (by omega)]; omega
    · rw [write_template_ptr, hsz]; unfold template_item_size; rw [if_neg (by omega)]; omega
  · intro i hi
    rw [hmem, write_text_get _ _ _ i hi]
    exact Nat.mod_eq_of_lt (hw _ (List.get_mem _ _ _))
  · rw [hmem]; exact write_text_terminator _ _ _
  · rw [write_loop_ptr]; rfl
  · rw [write_template_vec_ptr]; rfl

/-- C5 (empty-sequence synthesis): `template_size` of an empty vector is 28,
and static `write_template` of an empty vector at `p`, over 28 zero bytes,
returns `p + 28` and leaves one record there: `type` 0, `state`
`MFS_DISABLED`, `id` 0, `flags` `MF_END`, the label "Empty", a zero terminator
and a zero filler; no byte outside these 28 is changed.  The function
`create_menu` with no items builds a 64-byte buffer that holds this record at
offset 36, as the children of its "root" entry. -/
theorem C5_empty_sequence (p : Nat) (m : Mem)
    (hz : ∀ a, p ≤ a → a < p + 28 → m a = 0) :
    template_size_vec [] = 28 ∧
    (write_template_vec [] p m).2 = p + 28 ∧
    load32 (write_template_vec [] p m).1 (p + off_type) = 0 ∧
    load32 (write_template_vec [] p m).1 (p + off_state) = MFS_DISABLED ∧
    load32 (write_template_vec [] p m).1 (p + off_id) = 0 ∧
    load16 (write_template_vec [] p m).1 (p + off_flags) = MF_END ∧
    (∀ (i : Nat) (hi : i < Empty_sv.length),
      load16 (write_template_vec [] p m).1 (p + off_text + 2 * i) = Empty_sv.get ⟨i, hi⟩) ∧
    load16 (write_template_vec [] p m).1 (p + off_text + 10) = 0 ∧
    load16 (write_template_vec [] p m).1 (p + off_text + 12) = 0 ∧
    (∀ a, a < p ∨ p + 28 ≤ a → (write_template_vec [] p m).1 a = m a) ∧
    (create_menu []).2 = 64 ∧
    load32 (create_menu []).1 (36 + off_type) = 0 ∧
    load32 (create_menu []).1 (36 + off_state) = MFS_DISABLED ∧
    load32 (create_menu []).1 (36 + off_id) = 0 ∧
    load16 (create_menu []).1 (36 + off_flags) = MF_END ∧
    (∀ (i : Nat) (hi : i < Empty_sv.length),
      load16 (create_menu []).1 (36 + off_text + 2 * i) = Empty_sv.get ⟨i, hi⟩) := by
  have z32 : ∀ a, p ≤ a → a + 4 ≤ p + 28 → load32 m a = 0 := by
    intro a h1 h2
    unfold load32 load16 load8
    rw [hz a (by omega) (by omega), hz (a + 1) (by omega) (by omega),
      hz (a + 2) (by omega) (by omega), hz (a + 2 + 1) (by omega) (by omega)]
  have z16 : ∀ a, p ≤ a → a + 2 ≤ p + 28 → load16 m a = 0 := by
    intro a h1 h2
    unfold load16 load8
    rw [hz a (by omega) (by omega), hz (a + 1) (by omega) (by omega)]
  have hs : template_item_size 5 = 28 := by decide
  simp only [off_type, off_state, off_id, off_flags, off_text, Nat.add_zero]
  refine ⟨by decide, ?_, ?_, ?_, ?_, ?_, ?_, ?_, ?_, ?_, by decide, by decide, by decide,
    by decide, by decide, by decide⟩
  · rw [write_template_vec_ptr]; rfl
  · rw [write_template_vec_nil]
    unfold write_empty off_state off_flags
    simp only
    rw [load32_write_text _ _ _ _ (by omega), load32_store16_frame _ _ _ _ (by omega),
      load32_store32_frame _ _ _ _ (by omega)]
    exact z32 p (by omega) (by omega)
  · rw [write_template_vec_nil]
    unfold write_empty off_state off_flags
    simp only
    rw [load32_write_text _ _ _ _ (by omega), load32_store16_frame _ _ _ _ (by omega),
      load32_store32, z32 (p + 4) (by omega) (by omega)]
    decide
  · rw [write_template_vec_nil]
    unfold write_empty off_state off_flags
    simp only
    rw [load32_write_text _ _ _ _ (by omega), load32_store16_frame _ _ _ _ (by omega),
      load32_store32_frame _ _ _ _ (by omega)]
    exact z32 (p + 8) (by omega) (by omega)
  · rw [write_template_vec_nil]
    unfold write_empty off_state off_flags
    simp only
    rw [load16_write_text _ _ _ _ (by omega), load16_store16,
      load16_store32_frame _ _ _ _ (by omega), z16 (p + 12) (by omega) (by omega)]
    decide
  · intro i hi
    rw [write_template_vec_nil]
    unfold write_empty
    simp only
    rw [write_text_get _ _ _ i hi]
    have hi5 : i < 5 := hi
    interval_cases i <;> rfl
  · rw [write_template_vec_nil]
    unfold write_empty
    exact write_text_terminator Empty_sv p _
  · rw [write_template_vec_nil]
    unfold write_empty
    exact write_text_filler Empty_sv p _ (by decide)
  · intro a ha
    exact write_template_vec_frame [] p m a (by rw [show template_size_vec [] = 28 from rfl]; exact ha)

/-- C6 (per-node field encoding): whatever the output record held before,
the member `write_template` leaves `type = MFT_SEPARATOR` if `separator` is
present and true, else 0; `state` = the or of `MFS_DISABLED` (if `disabled` is
present and true) and `MFS_CHECKED` (if `checked` is present and true); `id` =
the node's id as a 32-bit word, 0 if absent; bit `0x01` of `flags` set exactly
when `items` is present.  A node with `separator`, `disabled` or `checked`
absent and the same node with that flag `false` are encoded identically. -/
theorem C6_field_encoding (ident : Option Int) (text : Option (List Nat))
    (separator disabled checked : Option Bool) (items : Option (List menu_item))
    (p : Nat) (is_last : Bool) (m : Mem) :
    load32 ((mk ident text separator disabled checked items).write_template p is_last m).1
        (p + off_type) = (if separator = some true then MFT_SEPARATOR else 0) ∧
    load32 ((mk ident text separator disabled checked items).write_template p is_last m).1
        (p + off_state) = ((if disabled = some true then MFS_DISABLED else 0) |||
          (if checked = some true then MFS_CHECKED else 0)) ∧
    (load32 ((mk ident text separator disabled checked items).write_template p is_last m).1
        (p + off_id) : Int) = (ident.getD 0) % 4294967296 ∧
    load16 ((mk ident text separator disabled checked items).write_template p is_last m).1
        (p + off_flags) &&& 0x01 = (if items.isSome then 1 else 0) ∧
    (mk ident text none disabled checked items).write_template p is_last m
      = (mk ident text (some false) disabled checked items).write_template p is_last m ∧
    (mk ident text separator none checked items).write_template p is_last m
      = (mk ident text separator (some false) checked items).write_template p is_last m ∧
    (mk ident text separator disabled none items).write_template p is_last m
      = (mk ident text separator disabled (some false) items).write_template p is_last m := by
  have e32 : ∀ a, a + 4 ≤ 14 →
      load32 ((mk ident text separator disabled checked items).write_template p is_last m).1
        (p + a) = load32 (write_header ident separator disabled checked items.isSome p
          is_last m) (p + a) := by
    intro a ha
    apply load32_congr
    intro y h1 h2
    exact write_template_header (mk ident text separator disabled checked items) p is_last m y
      (by omega)
  have e16 : load16 ((mk ident text separator disabled checked items).write_template p
        is_last m).1 (p + 12) = load16 (write_header ident separator disabled checked
          items.isSome p is_last m) (p + 12) := by
    apply load16_congr
    intro y h1 h2
    exact write_template_header (mk ident text separator disabled checked items) p is_last m y
      (by omega)
  obtain ⟨f1, f2, f3, f4⟩ :=
    write_header_fields ident separator disabled checked items.isSome p is_last m
  simp only [off_type, off_state, off_id, off_flags]
  refine ⟨?_, ?_, ?_, ?_, ?_, ?_, ?_⟩
  · rw [e32 0 (by omega), Nat.add_zero, f1]
    rcases separator with _ | _ | _ <;> rfl
  · rw [e32 4 (by omega), f2]
    rcases disabled with _ | _ | _ <;> rcases checked with _ | _ | _ <;> rfl
  · rw [e32 8 (by omega), f3]
    unfold to_uint32; omega
  · rw [e16, f4]
    cases is_last <;> cases items.isSome <;> decide
  · cases items <;> rfl
  · cases items <;> rfl
  · cases items <;> rfl


/-! ## Bit masks -/

theorem land_clear (x nk k : Nat) (h : nk &&& k = 0) : (x &&& nk) &&& k = 0 := by
  rw [Nat.land_assoc, h, Nat.and_zero]

theorem land_set (x nk k : Nat) (h : nk &&& k = 0) : ((x &&& nk) ||| k) &&& k = k := by
  rw [Nat.land_comm, Nat.and_or_distrib_left, Nat.land_comm, land_clear x nk k h,
    Nat.zero_or, Nat.and_self]

theorem land_keep_clear (x nk j : Nat) (h : nk &&& j = j) : (x &&& nk) &&& j = x &&& j := by
  rw [Nat.land_assoc, h]

theorem land_keep_set (x nk k j : Nat) (h : nk &&& j = j) (h2 : k &&& j = 0) :
    ((x &&& nk) ||| k) &&& j = x &&& j := by
  rw [Nat.land_comm, Nat.and_or_distrib_left, Nat.land_comm, land_keep_clear x nk j h,
    Nat.land_comm j k, h2, Nat.or_zero]

theorem update_item_info_fState (options : menu_item) (item : MENUITEMINFO) :
    (update_item_info options item).fState =
      update_flag options.checked MFS_CHECKED
        (update_flag options.disabled MFS_DISABLED item.fState) := by
  cases options with
  | mk ident text separator disabled checked items =>
    rcases separator with _ | s <;> rcases disabled with _ | _ | _ <;>
      rcases checked with _ | _ | _ <;> cases ident <;> cases text <;> rfl

theorem update_item_info_fMask (options : menu_item) (item : MENUITEMINFO) :
    (update_item_info options item).fMask =
      ((((if options.separator.isSome then MIIM_FTYPE else 0) |||
        (if options.disabled.isSome then MIIM_STATE else 0)) |||
        (if options.checked.isSome then MIIM_STATE else 0)) |||
        (if options.id.isSome then MIIM_ID else 0)) |||
        (if options.text.isSome then MIIM_STRING else 0) := by
  cases options with
  | mk ident text separator disabled checked items =>
    rcases separator with _ | s <;> rcases disabled with _ | _ | _ <;>
      rcases checked with _ | _ | _ <;> cases ident <;> cases text <;>
      simp [update_item_info, menu_item.separator, menu_item.disabled, menu_item.checked,
        menu_item.id, menu_item.text]

/-- C7 (outcome disambiguation): in `export_Menu_showSync` and in
`export_Menu_show` the delivered outcome is determined by the return value `r`
of `TrackPopupMenuEx` and the value `e` of `GetLastError` right after it: the
selected id `r` if `r` is non-zero (and then `GetLastError` is not called),
`null` if both are zero, and an error naming "TrackPopupMenuEx" and carrying
`e` if `r` is zero and `e` is not.  The blocking and the promise-based path
deliver the same outcome for the same `(r, e)`. -/
theorem C7_outcome_disambiguation (r : Int) (e : Nat) :
    (export_Menu_showSync r e).1 =
      (if r ≠ 0 then Outcome.selected r
       else if e = 0 then Outcome.null else Outcome.error "TrackPopupMenuEx" e) ∧
    (export_Menu_show true true r e).settled = some (export_Menu_showSync r e).1 ∧
    count_GetLastError (export_Menu_showSync r e).2 = (if r ≠ 0 then 0 else 1) ∧
    count_GetLastError
        ((export_Menu_show true true r e).before ++ (export_Menu_show true true r e).after)
      = (if r ≠ 0 then 0 else 1) := by
  by_cases hr : r = 0
  · subst hr
    by_cases he : e = 0
    · subst he
      refine ⟨by decide, by decide, by decide, by decide⟩
    · refine ⟨?_, ?_, ?_, ?_⟩ <;>
        simp [export_Menu_showSync, export_Menu_show, show_work, show_continuation,
          track_popup, run_on_msg_thread_blocking, run_on_msg_thread_nonblocking,
          run_on_env_thread_blocking, count_GetLastError, he]
  · refine ⟨?_, ?_, ?_, ?_⟩ <;>
      simp [export_Menu_showSync, export_Menu_show, show_work, show_continuation,
        track_popup, run_on_msg_thread_blocking, run_on_msg_thread_nonblocking,
        run_on_env_thread_blocking, count_GetLastError, hr]

/-- C8 (update flag semantics): after `update_item_info`, for `disabled` (bits
`MFS_DISABLED`) and for `checked` (bit `MFS_CHECKED`): the bits are those of
the input `fState` if the flag is absent, cleared if it is `false`, set if it
is `true`; every other bit of the 32-bit `fState` is unchanged; `MIIM_STATE` is
set in `fMask` exactly when `disabled` or `checked` is present.  Absent and
`false` give different `fState` whenever the bit was set before. -/
theorem C8_update_flag_semantics (options : menu_item) (item : MENUITEMINFO) :
    (update_item_info options item).fState &&& MFS_DISABLED =
      (match options.disabled with
       | none => item.fState &&& MFS_DISABLED
       | some false => 0
       | some true => MFS_DISABLED) ∧
    (update_item_info options item).fState &&& MFS_CHECKED =
      (match options.checked with
       | none => item.fState &&& MFS_CHECKED
       | some false => 0
       | some true => MFS_CHECKED) ∧
    (update_item_info options item).fState &&& not32 (MFS_DISABLED ||| MFS_CHECKED) =
      item.fState &&& not32 (MFS_DISABLED ||| MFS_CHECKED) ∧
    ((options.disabled = none ∧ options.checked = none) →
      (update_item_info options item).fState = item.fState) ∧
    ((update_item_info options item).fMask &&& MIIM_STATE =
      if options.disabled.isSome ∨ options.checked.isSome then MIIM_STATE else 0) ∧
    (item.fState &&& MFS_DISABLED ≠ 0 →
      (update_item_info (mk options.id options.text options.separator none options.checked
          options.items) item).fState ≠
      (update_item_info (mk options.id options.text options.separator (some false)
          options.checked options.items) item).fState) ∧
    (item.fState &&& MFS_CHECKED ≠ 0 →
      (update_item_info (mk options.id options.text options.separator options.disabled none
          options.items) item).fState ≠
      (update_item_info (mk options.id options.text options.separator options.disabled
          (some false) options.items) item).fState) := by
  have d1 : not32 MFS_DISABLED &&& MFS_DISABLED = 0 := by decide
  have d2 : not32 MFS_CHECKED &&& MFS_CHECKED = 0 := by decide
  have d3 : not32 MFS_DISABLED &&& MFS_CHECKED = MFS_CHECKED := by decide
  have d4 : not32 MFS_CHECKED &&& MFS_DISABLED = MFS_DISABLED := by decide
  have d5 : MFS_DISABLED &&& MFS_CHECKED = 0 := by decide
  have d6 : MFS_CHECKED &&& MFS_DISABLED = 0 := by decide
  have d7 : not32 MFS_DISABLED &&& not32 (MFS_DISABLED ||| MFS_CHECKED)
      = not32 (MFS_DISABLED ||| MFS_CHECKED) := by decide
  have d8 : not32 MFS_CHECKED &&& not32 (MFS_DISABLED ||| MFS_CHECKED)
      = not32 (MFS_DISABLED ||| MFS_CHECKED) := by decide
  have d9 : MFS_DISABLED &&& not32 (MFS_DISABLED ||| MFS_CHECKED) = 0 := by decide
  have d10 : MFS_CHECKED &&& not32 (MFS_DISABLED ||| MFS_CHECKED) = 0 := by decide
  cases options with
  | mk ident text separator disabled checked items =>
  simp only [update_item_info_fState, update_item_info_fMask, menu_item.id, menu_item.text,
    menu_item.separator, menu_item.disabled, menu_item.checked, menu_item.items]
  refine ⟨?_, ?_, ?_, ?_, ?_, ?_, ?_⟩
  · rcases disabled with _ | _ | _ <;> rcases checked with _ | _ | _ <;>
      simp only [update_flag, if_true, if_false, Bool.false_eq_true, land_clear _ _ _ d1,
        land_set _ _ _ d1, land_keep_clear _ _ _ d4, land_keep_set _ _ _ _ d4 d6]
  · rcases disabled with _ | _ | _ <;> rcases checked with _ | _ | _ <;>
      simp only [update_flag, if_true, if_false, Bool.false_eq_true, land_clear _ _ _ d2,
        land_set _ _ _ d2, land_keep_clear _ _ _ d3, land_keep_set _ _ _ _ d3 d5]
  · rcases disabled with _ | _ | _ <;> rcases checked with _ | _ | _ <;>
      simp only [update_flag, if_true, if_false, Bool.false_eq_true,
        land_keep_clear _ _ _ d7, land_keep_set _ _ _ _ d7 d9,
        land_keep_clear _ _ _ d8, land_keep_set _ _ _ _ d8 d10]
  · rintro ⟨h1, h2⟩
    rw [h1, h2]
    rfl
  · cases separator <;> cases disabled <;> cases checked <;> cases ident <;> cases text <;>
      simp [MIIM_FTYPE, MIIM_STATE, MIIM_ID, MIIM_STRING]
  · intro hset heq
    have h := congrArg (fun v => v &&& MFS_DISABLED) heq
    simp only at h
    rcases checked with _ | _ | _ <;>
      simp only [update_flag, if_true, if_false, Bool.false_eq_true,
        land_clear _ _ _ d1, land_keep_clear _ _ _ d4, land_keep_set _ _ _ _ d4 d6] at h <;>
      exact hset h
  · intro hset heq
    have h := congrArg (fun v => v &&& MFS_CHECKED) heq
    simp only at h
    rcases disabled with _ | _ | _ <;>
      simp only [update_flag, if_true, if_false, Bool.false_eq_true,
        land_clear _ _ _ d2, land_keep_clear _ _ _ d3, land_keep_set _ _ _ _ d3 d5] at h <;>
      exact hset h

/-- C9 (cross-thread execution): in `export_Menu_showSync` and in
`export_Menu_show` the one call of `TrackPopupMenuEx` and the one read of
`icon_message_loop.hwnd` are made by the work closure, hence on the loop
thread, and none is made on the thread of the caller; before it returns,
`export_Menu_show` parses its arguments, creates the promise, posts the work
and returns the promise. -/
theorem C9_cross_thread_execution (r : Int) (e : Nat) (env_data2 : Bool) :
    popup_events (export_Menu_showSync r e).2 =
      [Event.mk Thread.msg Call.read_hwnd, Event.mk Thread.msg Call.TrackPopupMenuEx] ∧
    popup_events (export_Menu_show true true r e).after =
      [Event.mk Thread.msg Call.read_hwnd, Event.mk Thread.msg Call.TrackPopupMenuEx] ∧
    popup_events (export_Menu_show true false r e).after = [] ∧
    (export_Menu_show true env_data2 r e).before =
      [Event.mk Thread.env Call.napi_get_cb_info, Event.mk Thread.env Call.get_env_data,
       Event.mk Thread.env Call.read_menu, Event.mk Thread.env Call.napi_create_promise,
       Event.mk Thread.env Call.run_on_msg_thread_nonblocking] ∧
    (export_Menu_show true env_data2 r e).promise = true ∧
    popup_events ((export_Menu_show false env_data2 r e).before ++
      (export_Menu_show false env_data2 r e).after) = [] := by
  refine ⟨?_, ?_, ?_, ?_, ?_, ?_⟩
  · by_cases hr : r = 0 <;> by_cases he : e = 0 <;>
      simp [export_Menu_showSync, track_popup, run_on_msg_thread_blocking, popup_events,
        List.filter, hr, he]
  · by_cases hr : r = 0 <;> by_cases he : e = 0 <;>
      simp [export_Menu_show, show_work, show_continuation, track_popup,
        run_on_msg_thread_nonblocking, run_on_env_thread_blocking, popup_events,
        List.filter, hr, he]
  · simp [export_Menu_show, show_work, run_on_msg_thread_nonblocking, popup_events,
      List.filter]
  · simp [export_Menu_show]
  · simp [export_Menu_show]
  · simp [export_Menu_show, popup_events, List.filter]

/-- C10 (separator on update), at the options `{separator: false}`: the update
of a plain string item stores `MFT_SEPARATOR` into `fType` and sets
`MIIM_FTYPE`, so the entry becomes a separator although `separator` is false;
the member `write_template` of the same node leaves `type` without
`MFT_SEPARATOR`. -/
theorem C10_separator_false_update :
    (update_item_info options_separator_false info_plain).fType = MFT_SEPARATOR ∧
    (update_item_info options_separator_false info_plain).fType &&& MFT_SEPARATOR ≠ 0 ∧
    (update_item_info options_separator_false info_plain).fMask = MIIM_FTYPE ∧
    info_plain.fType &&& MFT_SEPARATOR = 0 ∧
    load32 (options_separator_false.write_template 0 true zero_mem).1 off_type = 0 := by
  decide

/-! ## The theorems at concrete inputs -/

/-- The nested sequence of `nested_menu` lies at 44; its last record, at 64, has
`MF_END` set. -/
theorem C2_terminal_bit_witness :
    SiblingSeq nested_menu 0 ([item_C] ++ item_sep :: []) 44 ∧
    load16 (write_template_vec nested_menu 0 zero_mem).1 76 &&& MF_END = MF_END :=
  have h : SiblingSeq nested_menu 0 ([item_C] ++ item_sep :: []) 44 :=
    SiblingSeq.child [item_A] item_sub [] [item_C, item_sep] 0 [item_C, item_sep] 44 rfl
      (SiblingSeq.root _ _)
  ⟨h, (C2_terminal_bit nested_menu 0 [item_C] item_sep [] 44 h zero_mem).2⟩

/-- The nested sequence of `nested_menu` and its second record are 4-aligned. -/
theorem C3_alignment_witness :
    SiblingSeq nested_menu 0 ([item_C] ++ item_sep :: []) 44 ∧
    ((write_loop [item_C] 44 zero_mem).2 - 44) % 4 = 0 ∧ (44 - 0) % 4 = 0 :=
  have h : SiblingSeq nested_menu 0 ([item_C] ++ item_sep :: []) 44 :=
    SiblingSeq.child [item_A] item_sub [] [item_C, item_sep] 0 [item_C, item_sep] 44 rfl
      (SiblingSeq.root _ _)
  ⟨h, (C3_alignment 1 nested_menu nested_menu 0 [item_C] item_sep [] 44 h zero_mem).2.2.2.1,
    (C3_alignment 1 nested_menu nested_menu 0 [item_C] item_sep [] 44 h zero_mem).2.2.2.2.2⟩

/-- The record of `{text: "A", id: 1}` is 20 bytes long and holds the unit 65 at
offset 14. -/
theorem C4_padding_parity_witness :
    (∀ u ∈ (some [65] : Option (List Nat)).getD [], u < 65536) ∧
    (item_A.write_template 0 false zero_mem).2 = 0 + (14 + 2 * 1 + 4) ∧
    load16 (item_A.write_template 0 false zero_mem).1 (0 + 14 + 2 * 0) = 65 :=
  have hw : ∀ u ∈ (some [65] : Option (List Nat)).getD [], u < 65536 := by decide
  ⟨hw,
    ((C4_padding_parity (some 1) (some [65]) none none none 0 false zero_mem hw).1 rfl).2.1,
    (C4_padding_parity (some 1) (some [65]) none none none 0 false zero_mem hw).2.2.1 0
      (by decide)⟩

/-- The placeholder record written at 8 over the zero memory. -/
theorem C5_empty_sequence_witness :
    (∀ a, 8 ≤ a → a < 8 + 28 → zero_mem a = 0) ∧
    (write_template_vec [] 8 zero_mem).2 = 8 + 28 ∧
    load32 (write_template_vec [] 8 zero_mem).1 (8 + off_state) = MFS_DISABLED ∧
    load16 (write_template_vec [] 8 zero_mem).1 (8 + off_flags) = MF_END :=
  have hz : ∀ a, 8 ≤ a → a < 8 + 28 → zero_mem a = 0 := fun _ _ _ => rfl
  ⟨hz, (C5_empty_sequence 8 zero_mem hz).2.1, (C5_empty_sequence 8 zero_mem hz).2.2.2.1,
    (C5_empty_sequence 8 zero_mem hz).2.2.2.2.2.1⟩

/-- On a checked item, an update without `checked` and one with
`checked: false` leave different `fState`. -/
theorem C8_update_flag_semantics_witness :
    info_checked.fState &&& MFS_CHECKED ≠ 0 ∧
    (update_item_info (mk none none none none none none) info_checked).fState ≠
      (update_item_info (mk none none none none (some false) none) info_checked).fState :=
  have h : info_checked.fState &&& MFS_CHECKED ≠ 0 := by decide
  ⟨h, (C8_update_flag_semantics (mk none none none none none none) info_checked).2.2.2.2.2.2 h⟩


/-! ## Dependence of the output on the prior buffer content -/

theorem store16_pointwise (m1 m2 : Mem) (a v x : Nat) (h : m1 x = m2 x) :
    store16 m1 a v x = store16 m2 a v x := by
  simp only [store16_apply, h]

theorem store32_pointwise (m1 m2 : Mem) (a v x : Nat) (h : m1 x = m2 x) :
    store32 m1 a v x = store32 m2 a v x := by
  simp only [store32_apply, h]

theorem copy_pointwise (src : List Nat) (dst : Nat) (m1 m2 : Mem) (x : Nat)
    (h : m1 x = m2 x) : (copy src dst m1).1 x = (copy src dst m2).1 x := by
  induction src generalizing dst m1 m2 with
  | nil => simpa [copy] using h
  | cons c cs ih =>
    simp only [copy]
    exact ih _ _ _ (store16_pointwise m1 m2 dst c x h)

theorem write_text_pointwise (src : List Nat) (item : Nat) (m1 m2 : Mem) (x : Nat)
    (h : m1 x = m2 x) : (write_text src item m1).1 x = (write_text src item m2).1 x := by
  unfold write_text
  simp only [copy_ptr]
  split
  · exact store16_pointwise _ _ _ _ _
      (store16_pointwise _ _ _ _ _ (copy_pointwise src _ m1 m2 x h))
  · exact store16_pointwise _ _ _ _ _ (copy_pointwise src _ m1 m2 x h)

theorem write_label_pointwise (text : Option (List Nat)) (output : Nat) (m1 m2 : Mem)
    (x : Nat) (h : m1 x = m2 x) :
    (write_label text output m1).1 x = (write_label text output m2).1 x := by
  rw [write_label_eq, write_label_eq]
  exact write_text_pointwise _ _ _ _ _ h

/-- The header stores of the member `write_template` assign every field before
they or into it, so the byte they leave at `x` depends on the prior memory at
`x` only. -/
theorem write_header_pointwise (ident : Option Int)
    (separator disabled checked : Option Bool) (has_items : Bool)
    (output : Nat) (is_last : Bool) (m1 m2 : Mem) (x : Nat) (h : m1 x = m2 x) :
    write_header ident separator disabled checked has_items output is_last m1 x
      = write_header ident separator disabled checked has_items output is_last m2 x := by
  unfold write_header off_type off_state off_id off_flags
  cases separator.getD false <;> cases disabled.getD false <;> cases checked.getD false <;>
    cases is_last <;> cases has_items <;>
    simp only [if_true, if_false, Bool.false_eq_true, load32_store32, load16_store16] <;>
    repeat (first | exact h | apply store32_pointwise | apply store16_pointwise)

theorem write_record_pointwise (ident : Option Int) (text : Option (List Nat))
    (separator disabled checked : Option Bool) (has_items : Bool)
    (output : Nat) (is_last : Bool) (m1 m2 : Mem) (x : Nat) (h : m1 x = m2 x) :
    (write_record ident text separator disabled checked has_items output is_last m1).1 x
      = (write_record ident text separator disabled checked has_items output is_last m2).1 x := by
  unfold write_record
  exact write_label_pointwise _ _ _ _ _ (write_header_pointwise _ _ _ _ _ _ _ _ _ _ h)

/-- The placeholder branch reads `state` and `flags` before it stores them: the
byte it leaves at `x` depends on the prior memory at `x` and on the prior
bytes of these two fields. -/
theorem write_empty_agree (output : Nat) (m1 m2 : Mem)
    (hr : ∀ a, output ≤ a → a < output + 14 → m1 a = m2 a) (x : Nat) (h : m1 x = m2 x) :
    (write_empty output m1).1 x = (write_empty output m2).1 x := by
  unfold write_empty off_state off_flags
  simp only
  apply write_text_pointwise
  have e1 : load32 m1 (output + 4) = load32 m2 (output + 4) :=
    load32_congr _ _ _ (fun a h1 h2 => hr a (by omega) (by omega))
  have e2 : load16 (store32 m1 (output + 4) (load32 m1 (output + 4) ||| MFS_DISABLED))
        (output + 12)
      = load16 (store32 m2 (output + 4) (load32 m2 (output + 4) ||| MFS_DISABLED))
        (output + 12) := by
    rw [load16_store32_frame _ _ _ _ (by omega), load16_store32_frame _ _ _ _ (by omega)]
    exact load16_congr _ _ _ (fun a h1 h2 => hr a (by omega) (by omega))
  rw [e2, e1]
  exact store16_pointwise _ _ _ _ _ (store32_pointwise _ _ _ _ _ h)

mutual
theorem write_template_agree : ∀ (n : menu_item) (output : Nat) (is_last : Bool)
    (m1 m2 : Mem),
    (∀ a, output ≤ a → a < output + n.template_size → m1 a = m2 a) →
    ∀ x, m1 x = m2 x →
      (n.write_template output is_last m1).1 x = (n.write_template output is_last m2).1 x
  | mk ident text separator disabled checked none, output, is_last, m1, m2, _, x, h => by
      simp only [write_template]
      exact write_record_pointwise _ _ _ _ _ _ _ _ _ _ _ h
  | mk ident text separator disabled checked (some its), output, is_last, m1, m2, hr, x, h => by
      simp only [write_template, write_record_ptr]
      simp only [template_size] at hr
      exact write_template_vec_agree its _ _ _
        (fun a h1 h2 => write_record_pointwise _ _ _ _ _ _ _ _ _ _ _
          (hr a (by omega) (by omega)))
        x (write_record_pointwise _ _ _ _ _ _ _ _ _ _ _ h)
theorem write_template_vec_agree : ∀ (items : List menu_item) (output : Nat) (m1 m2 : Mem),
    (∀ a, output ≤ a → a < output + template_size_vec items → m1 a = m2 a) →
    ∀ x, m1 x = m2 x →
      (write_template_vec items output m1).1 x = (write_template_vec items output m2).1 x
  | [], output, m1, m2, hr, x, h => by
      rw [write_template_vec_nil, write_template_vec_nil]
      have hs : template_size_vec [] = 28 := by decide
      rw [hs] at hr
      exact write_empty_agree output m1 m2 (fun a h1 h2 => hr a h1 (by omega)) x h
  | it :: [], output, m1, m2, hr, x, h => by
      rw [write_template_vec_single, write_template_vec_single]
      simp only [template_size_vec, template_size_loop] at hr
      exact write_template_agree it _ _ _ _ (fun a h1 h2 => hr a h1 (by omega)) x h
  | it :: b :: rest, output, m1, m2, hr, x, h => by
      rw [write_template_vec_cons_cons, write_template_vec_cons_cons]
      simp only [write_template_ptr]
      have hsz : template_size_vec (it :: b :: rest)
          = it.template_size + template_size_vec (b :: rest) := by
        simp only [template_size_vec, template_size_loop]
      rw [hsz] at hr
      have hit : ∀ y, m1 y = m2 y →
          (it.write_template output false m1).1 y = (it.write_template output false m2).1 y :=
        fun y hy => write_template_agree it _ _ _ _ (fun a h1 h2 => hr a h1 (by omega)) y hy
      exact write_template_vec_agree (b :: rest) _ _ _
        (fun a h1 h2 => hit a (hr a (by omega) (by omega))) x (hit x h)
end


theorem store16_cover (m1 m2 : Mem) (a v x : Nat)
    (h : ¬ (a ≤ x ∧ x < a + 2) → m1 x = m2 x) :
    store16 m1 a v x = store16 m2 a v x := by
  by_cases hk : a ≤ x ∧ x < a + 2
  · simp only [store16_apply]
    by_cases h1 : x = a + 1
    · simp [h1]
    · have h0 : x = a := by omega
      simp [h0]
  · exact store16_pointwise _ _ _ _ _ (h hk)

theorem store32_cover (m1 m2 : Mem) (a v x : Nat)
    (h : ¬ (a ≤ x ∧ x < a + 4) → m1 x = m2 x) :
    store32 m1 a v x = store32 m2 a v x := by
  by_cases hk : a ≤ x ∧ x < a + 4
  · simp only [store32_apply]
    by_cases h3 : x = a + 3
    · simp [h3]
    · by_cases h2 : x = a + 2
      · simp [h2]
      · by_cases h1 : x = a + 1
        · simp [h1]
        · have h0 : x = a := by omega
          simp [h0]
  · exact store32_pointwise _ _ _ _ _ (h hk)

theorem copy_cover (src : List Nat) (dst : Nat) (m1 m2 : Mem) (x : Nat)
    (h : ¬ (dst ≤ x ∧ x < dst + 2 * src.length) → m1 x = m2 x) :
    (copy src dst m1).1 x = (copy src dst m2).1 x := by
  induction src generalizing dst m1 m2 with
  | nil => exact h (by simp)
  | cons c cs ih =>
    simp only [copy]
    apply ih
    intro hk
    apply store16_cover
    intro hk2
    apply h
    simp only [List.length_cons]
    omega

theorem write_text_cover (src : List Nat) (item : Nat) (m1 m2 : Mem) (x : Nat)
    (h : ¬ (item + 14 ≤ x ∧ x < item + template_item_size src.length) → m1 x = m2 x) :
    (write_text src item m1).1 x = (write_text src item m2).1 x := by
  unfold template_item_size at h
  unfold write_text off_text
  simp only [copy_ptr]
  split
  · rename_i hodd
    rw [if_pos hodd] at h
    apply store16_cover
    intro hk1
    apply store16_cover
    intro hk2
    apply copy_cover
    intro hk3
    apply h
    omega
  · rename_i hodd
    rw [if_neg hodd] at h
    apply store16_cover
    intro hk2
    apply copy_cover
    intro hk3
    apply h
    omega

/-- Every byte of the four header fields is stored by the member
`write_template` before it is read: what it leaves there does not depend on
the prior buffer. -/
theorem write_header_cover (ident : Option Int)
    (separator disabled checked : Option Bool) (has_items : Bool)
    (output : Nat) (is_last : Bool) (m1 m2 : Mem) (x : Nat)
    (h : ¬ (output ≤ x ∧ x < output + 14) → m1 x = m2 x) :
    write_header ident separator disabled checked has_items output is_last m1 x
      = write_header ident separator disabled checked has_items output is_last m2 x := by
  by_cases hk : output ≤ x ∧ x < output + 14
  · unfold write_header off_type off_state off_id off_flags
    cases separator.getD false <;> cases disabled.getD false <;> cases checked.getD false <;>
      cases is_last <;> cases has_items <;>
      simp only [if_true, if_false, Bool.false_eq_true, load32_store32, load16_store16] <;>
      (repeat (first
        | (apply store32_cover; intro hs)
        | (apply store16_cover; intro hs))) <;>
      (exfalso; omega)
  · exact write_header_pointwise _ _ _ _ _ _ _ _ _ _ (h hk)

theorem write_record_cover (ident : Option Int) (text : Option (List Nat))
    (separator disabled checked : Option Bool) (has_items : Bool)
    (output : Nat) (is_last : Bool) (m1 m2 : Mem) (x : Nat)
    (h : ¬ (output ≤ x ∧ x < output + template_item_size (text_chars text)) → m1 x = m2 x) :
    (write_record ident text separator disabled checked has_items output is_last m1).1 x
      = (write_record ident text separator disabled checked has_items output is_last m2).1 x := by
  have hs := template_item_size_ge (text_chars text)
  unfold write_record
  rw [write_label_eq, write_label_eq]
  rw [text_chars_eq] at h hs
  apply write_text_cover
  intro hk
  apply write_header_cover
  intro hk2
  apply h
  omega

/-- The placeholder branch: what it leaves in its 28 bytes depends on the prior
buffer in the 14 header bytes only. -/
theorem write_empty_cover (output : Nat) (m1 m2 : Mem)
    (hr : ∀ a, output ≤ a → a < output + 14 → m1 a = m2 a) (x : Nat)
    (h : ¬ (output ≤ x ∧ x < output + 28) → m1 x = m2 x) :
    (write_empty output m1).1 x = (write_empty output m2).1 x := by
  by_cases hk : output + 14 ≤ x ∧ x < output + 28
  · unfold write_empty off_state off_flags
    simp only
    apply write_text_cover
    intro hk2
    exfalso
    apply hk2
    have hs : template_item_size Empty_sv.length = 28 := by decide
    rw [hs]
    exact hk
  · apply write_empty_agree output m1 m2 hr
    by_cases hin : output ≤ x ∧ x < output + 14
    · exact hr x hin.1 hin.2
    · exact h (by omega)

theorem prior_bytes_some (ident : Option Int) (text : Option (List Nat))
    (separator disabled checked : Option Bool) (its : List menu_item) (output a : Nat) :
    (menu_item.mk ident text separator disabled checked (some its)).prior_bytes output a =
      ((decide (output + template_item_size (text_chars text) ≤ a) &&
          decide (a < output + template_item_size (text_chars text) + 4)) ||
        prior_bytes_vec its (output + template_item_size (text_chars text) + 4) a) := by
  rw [menu_item.prior_bytes]

theorem prior_bytes_vec_nil (output a : Nat) :
    prior_bytes_vec [] output a = (decide (output ≤ a) && decide (a < output + 14)) := by
  rw [prior_bytes_vec]; rfl

theorem prior_bytes_vec_cons (it : menu_item) (rest : List menu_item) (output a : Nat) :
    prior_bytes_vec (it :: rest) output a =
      (it.prior_bytes output a || prior_bytes_loop rest (output + it.template_size) a) := by
  rw [prior_bytes_vec]

theorem prior_bytes_loop_cons (it : menu_item) (rest : List menu_item) (output a : Nat) :
    prior_bytes_loop (it :: rest) output a =
      (it.prior_bytes output a || prior_bytes_loop rest (output + it.template_size) a) := by
  rw [prior_bytes_loop]

mutual
theorem write_template_cover : ∀ (n : menu_item) (output : Nat) (is_last : Bool)
    (m1 m2 : Mem),
    (∀ a, n.prior_bytes output a = true → m1 a = m2 a) →
    ∀ x, (¬ (output ≤ x ∧ x < output + n.template_size) → m1 x = m2 x) →
      (n.write_template output is_last m1).1 x = (n.write_template output is_last m2).1 x
  | mk ident text separator disabled checked none, output, is_last, m1, m2, _, x, h => by
      simp only [write_template]
      simp only [template_size] at h
      exact write_record_cover _ _ _ _ _ _ _ _ _ _ _ h
  | mk ident text separator disabled checked (some its), output, is_last, m1, m2, hp, x, h => by
      simp only [write_template, write_record_ptr]
      simp only [template_size] at h
      apply write_template_vec_cover its
      · intro a ha
        apply write_record_pointwise
        apply hp
        rw [prior_bytes_some, ha, Bool.or_true]
      · intro hk
        by_cases hres : output + template_item_size (text_chars text) ≤ x ∧
            x < output + template_item_size (text_chars text) + 4
        · apply write_record_pointwise
          apply hp
          rw [prior_bytes_some]
          simp [hres.1, hres.2]
        · apply write_record_cover
          intro hk2
          apply h
          omega
theorem write_template_vec_cover : ∀ (items : List menu_item) (output : Nat) (m1 m2 : Mem),
    (∀ a, prior_bytes_vec items output a = true → m1 a = m2 a) →
    ∀ x, (¬ (output ≤ x ∧ x < output + template_size_vec items) → m1 x = m2 x) →
      (write_template_vec items output m1).1 x = (write_template_vec items output m2).1 x
  | [], output, m1, m2, hp, x, h => by
      rw [write_template_vec_nil, write_template_vec_nil]
      have hs : template_size_vec [] = 28 := by decide
      rw [hs] at h
      apply write_empty_cover output m1 m2 _ x h
      intro a ha1 ha2
      apply hp
      rw [prior_bytes_vec_nil]
      simp [ha1, ha2]
  | it :: [], output, m1, m2, hp, x, h => by
      rw [write_template_vec_single, write_template_vec_single]
      simp only [template_size_vec, template_size_loop] at h
      apply write_template_cover it
      · intro a ha
        apply hp
        rw [prior_bytes_vec_cons, ha, Bool.true_or]
      · intro hk
        apply h
        omega
  | it :: b :: rest, output, m1, m2, hp, x, h => by
      rw [write_template_vec_cons_cons, write_template_vec_cons_cons]
      simp only [write_template_ptr]
      have hsz : template_size_vec (it :: b :: rest)
          = it.template_size + template_size_vec (b :: rest) := by
        simp only [template_size_vec, template_size_loop]
      rw [hsz] at h
      have hpit : ∀ a, it.prior_bytes output a = true → m1 a = m2 a := by
        intro a ha
        apply hp
        rw [prior_bytes_vec_cons, ha, Bool.true_or]
      apply write_template_vec_cover (b :: rest)
      · intro a ha
        apply write_template_cover it _ _ _ _ hpit
        intro _
        apply hp
        rw [prior_bytes_vec_cons, prior_bytes_loop_cons, ← prior_bytes_vec_cons, ha,
          Bool.or_true]
      · intro hk
        apply write_template_cover it _ _ _ _ hpit
        intro hk2
        apply h
        omega
end

end MenuObject
